import Mathlib

/-!
Shallow embedding of the drand deployment-config repository.

Sources:
- src/main.py: builds a host list from a latency-label → replica-count table
  and renders a jinja2 template `docker-compose.yaml.j2` with it.
- src/web/server_example/script.py: a static file server whose request handler
  adds the header `Access-Control-Allow-Origin: *` to every response.

Python dicts preserve insertion order, so the latency table is embedded as an
association list. Python ints are embedded as `Int`; `range(c)` over an `Int`
count `c` is empty for `c ≤ 0`, embedded via `List.range c.toNat`.
-/

namespace Drand

/-! ### Decimal formatting: Python's `"%d" % i` for a non-negative `i` -/

/-- The numeric value of a decimal digit character. -/
def charVal (c : Char) : Nat := c.toNat - 48

/-- Fuel-driven decimal digit-list of `n`, most significant digit first.
Adequate whenever `n < fuel`. -/
def decDigitsAux : Nat → Nat → List Char
  | 0, _ => []
  | fuel + 1, n =>
    if n < 10 then [Nat.digitChar n]
    else decDigitsAux fuel (n / 10) ++ [Nat.digitChar (n % 10)]

/-- The decimal string of `n`: the embedding of Python's `"%d" % n` for the
non-negative loop indices produced by `range`. -/
def decRepr (n : Nat) : String := ⟨decDigitsAux (n + 1) n⟩

/-- The value denoted by a digit list, most significant first. -/
def decVal (ds : List Char) : Nat := ds.foldl (fun a c => 10 * a + charVal c) 0

theorem digitChar_isDigit : ∀ m, m < 10 → (Nat.digitChar m).isDigit := by decide

theorem charVal_digitChar : ∀ m, m < 10 → charVal (Nat.digitChar m) = m := by decide

theorem decVal_decDigitsAux :
    ∀ fuel n, n < fuel → decVal (decDigitsAux fuel n) = n := by
  intro fuel
  induction fuel with
  | zero => intro n h; omega
  | succ fuel ih =>
    intro n h
    rw [decDigitsAux]
    split
    next h10 =>
      simp only [decVal, List.foldl_cons, List.foldl_nil]
      rw [charVal_digitChar n h10]
      omega
    next h10 =>
      rw [decVal, List.foldl_append]
      simp only [List.foldl_cons, List.foldl_nil]
      have hdiv : n / 10 < fuel := by
        have := Nat.div_lt_self (n := n) (by omega) (by omega : 1 < 10)
        omega
      have hval := ih (n / 10) hdiv
      rw [decVal] at hval
      rw [hval, charVal_digitChar _ (Nat.mod_lt _ (by omega))]
      omega

theorem isDigit_of_mem_decDigitsAux :
    ∀ fuel n c, c ∈ decDigitsAux fuel n → c.isDigit := by
  intro fuel
  induction fuel with
  | zero => intro n c h; simp [decDigitsAux] at h
  | succ fuel ih =>
    intro n c h
    rw [decDigitsAux] at h
    split at h
    next h10 =>
      rw [List.mem_singleton] at h
      subst h
      exact digitChar_isDigit n h10
    next h10 =>
      rw [List.mem_append] at h
      rcases h with h | h
      · exact ih _ _ h
      · rw [List.mem_singleton] at h
        subst h
        exact digitChar_isDigit _ (Nat.mod_lt _ (by omega))

theorem decRepr_inj {a b : Nat} (h : decRepr a = decRepr b) : a = b := by
  have hd : decDigitsAux (a + 1) a = decDigitsAux (b + 1) b :=
    congrArg String.data h
  have ha := decVal_decDigitsAux (a + 1) a (by omega)
  have hb := decVal_decDigitsAux (b + 1) b (by omega)
  rw [hd, hb] at ha
  omega

theorem underscore_not_mem_decRepr (n : Nat) : '_' ∉ (decRepr n).data := by
  intro h
  exact absurd (isDigit_of_mem_decDigitsAux (n + 1) n '_' h) (by decide)

/-! ### The host-list builder (src/main.py) -/

/-- A node descriptor: one dictionary produced by `make_container_list`. -/
structure Descriptor where
  name : String
  latency : String
  volume_name : String
deriving DecidableEq

/-- `make_container_list(latency, count)` from src/main.py: one descriptor per
`i in range(count)`, with `name = "drand_container_%s_%d" % (latency, i)` and
`volume_name = "drand_volume_%s_%d" % (latency, i)`. -/
def make_container_list (latency : String) (count : Int) : List Descriptor :=
  (List.range count.toNat).map fun i =>
    { name := "drand_container_" ++ latency ++ "_" ++ decRepr i
      latency := latency
      volume_name := "drand_volume_" ++ latency ++ "_" ++ decRepr i }

/-- The hard-coded latency table of src/main.py, in insertion order. -/
def latencies_to_node_count : List (String × Int) :=
  [("100ms", 1), ("200ms", 2), ("300ms", 3), ("400ms", 4)]

/-- The accumulation loop of src/main.py:
`for l, c in m: hostlist = hostlist + make_container_list(l, c)`. -/
def buildHostlist (m : List (String × Int)) : List Descriptor :=
  m.foldl (fun acc p => acc ++ make_container_list p.1 p.2) []

/-- `hostlist` as computed by src/main.py. -/
def hostlist : List Descriptor := buildHostlist latencies_to_node_count

theorem foldl_append_blocks (m : List (String × Int)) (init : List Descriptor) :
    m.foldl (fun acc p => acc ++ make_container_list p.1 p.2) init
      = init ++ (m.map fun p => make_container_list p.1 p.2).flatten := by
  induction m generalizing init with
  | nil => simp
  | cons p m ih => simp [List.foldl_cons, ih]

theorem buildHostlist_eq_flatten (m : List (String × Int)) :
    buildHostlist m = (m.map fun p => make_container_list p.1 p.2).flatten := by
  simp [buildHostlist, foldl_append_blocks]

/-! ### Injectivity of the generated names -/

theorem append_underscore_inj (a1 : List Char) :
    ∀ (a2 d1 d2 : List Char), '_' ∉ d1 → '_' ∉ d2 →
      a1 ++ '_' :: d1 = a2 ++ '_' :: d2 → a1 = a2 ∧ d1 = d2 := by
  induction a1 with
  | nil =>
    intro a2 d1 d2 h1 h2 h
    cases a2 with
    | nil => simpa using h
    | cons b a2 =>
      simp only [List.nil_append, List.cons_append, List.cons.injEq] at h
      have : '_' ∈ d1 := by
        rw [h.2]
        exact List.mem_append_right _ (List.mem_cons_self _ _)
      exact absurd this h1
  | cons a a1 ih =>
    intro a2 d1 d2 h1 h2 h
    cases a2 with
    | nil =>
      simp only [List.cons_append, List.nil_append, List.cons.injEq] at h
      have : '_' ∈ d2 := by
        rw [← h.2]
        exact List.mem_append_right _ (List.mem_cons_self _ _)
      exact absurd this h2
    | cons b a2 =>
      simp only [List.cons_append, List.cons.injEq] at h
      obtain ⟨rfl, h⟩ := h
      obtain ⟨ha, hd⟩ := ih a2 d1 d2 h1 h2 h
      exact ⟨by rw [ha], hd⟩

/-- Two generated tags `p ++ l ++ "_" ++ decRepr i` agree only when both the
label and the index agree: the separator before the index is the last
underscore of the string, because decimal digit strings contain none. -/
theorem tag_inj (p l1 l2 : String) (i1 i2 : Nat)
    (h : p ++ l1 ++ "_" ++ decRepr i1 = p ++ l2 ++ "_" ++ decRepr i2) :
    l1 = l2 ∧ i1 = i2 := by
  have hd : p.data ++ (l1.data ++ '_' :: (decRepr i1).data)
      = p.data ++ (l2.data ++ '_' :: (decRepr i2).data) := by
    have hdata := congrArg String.data h
    simpa [List.append_assoc] using hdata
  have hsplit := append_underscore_inj l1.data l2.data _ _
    (underscore_not_mem_decRepr i1) (underscore_not_mem_decRepr i2)
    (List.append_cancel_left hd)
  refine ⟨?_, decRepr_inj (congrArg String.mk hsplit.2)⟩
  cases l1
  cases l2
  exact congrArg String.mk hsplit.1

theorem tags_block_nodup (p l : String) (c : Int) :
    ((List.range c.toNat).map fun i => p ++ l ++ "_" ++ decRepr i).Nodup :=
  List.Nodup.map (fun i1 i2 h => (tag_inj p l l i1 i2 h).2) (List.nodup_range c.toNat)

theorem tags_flatten_nodup (p : String) (m : List (String × Int))
    (hm : (m.map Prod.fst).Nodup) :
    ((m.map fun q => (List.range q.2.toNat).map fun i =>
        p ++ q.1 ++ "_" ++ decRepr i).flatten).Nodup := by
  rw [List.nodup_flatten]
  constructor
  · intro l hl
    rw [List.mem_map] at hl
    obtain ⟨q, hq, rfl⟩ := hl
    exact tags_block_nodup p q.1 q.2
  · rw [List.pairwise_map]
    have hpw : m.Pairwise fun q r => q.1 ≠ r.1 := by
      rw [List.Nodup, List.pairwise_map] at hm
      exact hm
    refine hpw.imp ?_
    intro q r hne a haq har
    rw [List.mem_map] at haq har
    obtain ⟨i1, hi1, rfl⟩ := haq
    obtain ⟨i2, hi2, heq⟩ := har
    exact hne ((tag_inj p r.1 q.1 i2 i1 heq).1.symm)

theorem map_name_make (l : String) (c : Int) :
    (make_container_list l c).map Descriptor.name
      = (List.range c.toNat).map fun i =>
          "drand_container_" ++ l ++ "_" ++ decRepr i := by
  simp [make_container_list, List.map_map, Function.comp]

theorem map_volume_make (l : String) (c : Int) :
    (make_container_list l c).map Descriptor.volume_name
      = (List.range c.toNat).map fun i =>
          "drand_volume_" ++ l ++ "_" ++ decRepr i := by
  simp [make_container_list, List.map_map, Function.comp]

theorem map_name_buildHostlist (m : List (String × Int)) :
    (buildHostlist m).map Descriptor.name
      = (m.map fun q => (List.range q.2.toNat).map fun i =>
          "drand_container_" ++ q.1 ++ "_" ++ decRepr i).flatten := by
  rw [buildHostlist_eq_flatten, List.map_flatten, List.map_map]
  congr 1
  refine List.map_congr_left fun q hq => ?_
  simpa [Function.comp] using map_name_make q.1 q.2

theorem map_volume_buildHostlist (m : List (String × Int)) :
    (buildHostlist m).map Descriptor.volume_name
      = (m.map fun q => (List.range q.2.toNat).map fun i =>
          "drand_volume_" ++ q.1 ++ "_" ++ decRepr i).flatten := by
  rw [buildHostlist_eq_flatten, List.map_flatten, List.map_map]
  congr 1
  refine List.map_congr_left fun q hq => ?_
  simpa [Function.comp] using map_volume_make q.1 q.2

/-! ### The template renderer of src/main.py -/

/-- The error conditions of the templating engine surfaced by src/main.py. -/
inductive TemplateError where
  | TemplateNotFound
  | TemplateSyntaxError
deriving DecidableEq

/-- A template file on disk: its text and whether it is syntactically valid
for the templating engine. -/
structure TemplateFile where
  content : String
  valid : Bool
deriving DecidableEq

/-- Modelled from the spec: jinja2's
`Environment(loader=FileSystemLoader("./")).get_template(name)` (the library
call in src/main.py lines 3-5, whose body is not in this repository). It
returns the template when the file exists in the working directory `fs` and
is syntactically valid, and otherwise raises `TemplateNotFound` (missing
file) or `TemplateSyntaxError` (invalid template). -/
def get_template (fs : List (String × TemplateFile)) (name : String) :
    Except TemplateError TemplateFile :=
  match fs.lookup name with
  | none => .error .TemplateNotFound
  | some t => if t.valid then .ok t else .error .TemplateSyntaxError

/-- The whole renderer program of src/main.py: load `docker-compose.yaml.j2`
from the working directory `fs`, render it once with `hosts := hostlist`, and
print the result. `render` stands for jinja2's rendering of a loaded template
against the bound variables (opaque to this program). `.ok s` models normal
termination with `s` written to stdout; `.error e` models termination by the
uncaught exception `e`, a non-zero exit with nothing written. -/
def rendererMain (fs : List (String × TemplateFile))
    (render : TemplateFile → List Descriptor → String) :
    Except TemplateError String :=
  match get_template fs "docker-compose.yaml.j2" with
  | .error e => .error e
  | .ok t => .ok (render t hostlist)

/-! ### The static file server of src/web/server_example/script.py -/

/-- The response machinery state when `end_headers` runs: the status already
sent and the header lines buffered by earlier `send_header` calls. -/
structure ResponseState where
  status : Nat
  pending : List (String × String)

/-- `CORSRequestHandler.end_headers` from script.py: it sends one more header,
`Access-Control-Allow-Origin: *`, and then delegates to
`SimpleHTTPRequestHandler.end_headers`, which flushes the buffered headers.
The result is the header block of the emitted response. -/
def end_headers (r : ResponseState) : List (String × String) :=
  r.pending ++ [("Access-Control-Allow-Origin", "*")]

/-- An emitted HTTP response. -/
structure Response where
  status : Nat
  headers : List (String × String)
  body : String

/-- Modelled from the spec: `SimpleHTTPRequestHandler` GET handling (Python
standard library, not in this repository), specialised to the handler class
of script.py: serve the file at `path` from the current directory `files`
with status 200, or reply 404 when it does not exist; either way the header
block is flushed through the overridden `end_headers`. -/
def serveRequest (files : List (String × String)) (path : String) : Response :=
  match files.lookup path with
  | some content =>
      { status := 200
        headers := end_headers { status := 200, pending := [("Content-type", "text/html")] }
        body := content }
  | none =>
      { status := 404
        headers := end_headers { status := 404, pending := [("Content-type", "text/html")] }
        body := "404 Not Found" }

/-- Modelled from the spec: Python's built-in `int()` applied to a string: an
optional sign followed by one or more decimal digits parses to that integer;
anything else raises `ValueError`, modelled as `none`. (CPython also strips
surrounding whitespace and allows digit-group underscores; those inputs are
not modelled.) -/
def digitsToNat (ds : List Char) : Option Nat :=
  if ds ≠ [] ∧ ds.all Char.isDigit then
    some (ds.foldl (fun a c => 10 * a + charVal c) 0)
  else none

/-- Modelled from the spec: Python's `int(s)` for a decimal string `s`;
see `digitsToNat`. -/
def pyInt (s : String) : Option Int :=
  match s.data with
  | '-' :: ds => (digitsToNat ds).map fun n => -(n : Int)
  | '+' :: ds => (digitsToNat ds).map fun n => (n : Int)
  | ds => (digitsToNat ds).map fun n => (n : Int)

/-- The `__main__` block of script.py:
`test(CORSRequestHandler, HTTPServer, port=int(sys.argv[1]) if len(sys.argv) > 1 else 8000)`.
The result is the TCP port the server binds, or `none` when `int()` raises
`ValueError` and the server never starts. -/
def script_main (argv : List String) : Option Int :=
  if argv.length > 1 then pyInt (argv.getD 1 "") else some 8000

theorem length_make_container_list (l : String) (c : Int) :
    (make_container_list l c).length = c.toNat := by
  simp [make_container_list]

theorem buildHostlist_cons (q : String × Int) (m : List (String × Int)) :
    buildHostlist (q :: m) = make_container_list q.1 q.2 ++ buildHostlist m := by
  rw [buildHostlist_eq_flatten, buildHostlist_eq_flatten, List.map_cons,
    List.flatten_cons]

/-! ### The claims -/

/-- C1: for every mapping from distinct latency labels to non-negative integer
counts c1..cN, the host-list builder (make_container_list applied to each pair
and concatenated in order) produces a sequence whose total length equals
c1+...+cN. -/
theorem c1_total_length (m : List (String × Int))
    (hlabels : (m.map Prod.fst).Nodup) (hcounts : ∀ q ∈ m, 0 ≤ q.2) :
    ((buildHostlist m).length : Int) = (m.map Prod.snd).sum := by
  clear hlabels
  induction m with
  | nil => simp [buildHostlist]
  | cons q m ih =>
    rw [buildHostlist_cons, List.length_append, length_make_container_list,
      List.map_cons, List.sum_cons]
    have h0 : 0 ≤ q.2 := hcounts q (List.mem_cons_self _ _)
    have hrest := ih fun r hr => hcounts r (List.mem_cons_of_mem _ hr)
    push_cast
    rw [hrest]
    omega

/-- Witness for C1 at the hard-coded latency table: 10 = 1 + 2 + 3 + 4. -/
theorem c1_witness :
    ((buildHostlist latencies_to_node_count).length : Int)
      = (latencies_to_node_count.map Prod.snd).sum :=
  c1_total_length latencies_to_node_count (by decide) (by decide)

/-- C2: every generated descriptor with label `label` and zero-based index
`index` has `name = "drand_container_{label}_{index}"`, `latency = label`, and
`volume_name = "drand_volume_{label}_{index}"`. -/
theorem c2_descriptor_fields (l : String) (c : Int) (i : Nat)
    (h : i < (make_container_list l c).length) :
    (make_container_list l c)[i].name = "drand_container_" ++ l ++ "_" ++ decRepr i
    ∧ (make_container_list l c)[i].latency = l
    ∧ (make_container_list l c)[i].volume_name
        = "drand_volume_" ++ l ++ "_" ++ decRepr i := by
  have hi : i < c.toNat := by simpa [make_container_list] using h
  simp [make_container_list]

/-- Witness for C2 at latency "100ms", count 2, index 1. -/
theorem c2_witness :
    1 < (make_container_list "100ms" 2).length
    ∧ ((make_container_list "100ms" 2).get ⟨1, by decide⟩).name
        = "drand_container_100ms_1" := by
  have h : 1 < (make_container_list "100ms" 2).length := by decide
  refine ⟨h, ?_⟩
  rw [List.get_eq_getElem, (c2_descriptor_fields "100ms" 2 1 h).1]
  decide

/-- C3: the builder appends exactly `count` descriptors per pair, indexed from
0 upward in order, blocks following the mapping's insertion order; and the
mapping 100ms ↦ 1, 200ms ↦ 2 yields exactly the three stated descriptors in
order. -/
theorem c3_order_and_scenario (m : List (String × Int)) (l : String) (c : Int)
    (h : 0 ≤ c) :
    buildHostlist m = (m.map fun q => make_container_list q.1 q.2).flatten
    ∧ ((make_container_list l c).length : Int) = c
    ∧ buildHostlist [("100ms", 1), ("200ms", 2)]
        = [⟨"drand_container_100ms_0", "100ms", "drand_volume_100ms_0"⟩,
           ⟨"drand_container_200ms_0", "200ms", "drand_volume_200ms_0"⟩,
           ⟨"drand_container_200ms_1", "200ms", "drand_volume_200ms_1"⟩] := by
  refine ⟨buildHostlist_eq_flatten m, ?_, by decide⟩
  rw [length_make_container_list]
  omega

/-- Witness for C3 at the scenario mapping of the claim. -/
theorem c3_witness :
    ((make_container_list "200ms" 2).length : Int) = 2
    ∧ buildHostlist [("100ms", 1), ("200ms", 2)]
        = [⟨"drand_container_100ms_0", "100ms", "drand_volume_100ms_0"⟩,
           ⟨"drand_container_200ms_0", "200ms", "drand_volume_200ms_0"⟩,
           ⟨"drand_container_200ms_1", "200ms", "drand_volume_200ms_1"⟩] :=
  ⟨(c3_order_and_scenario [] "200ms" 2 (by decide)).2.1,
   (c3_order_and_scenario [] "200ms" 2 (by decide)).2.2⟩

/-- C4: for every mapping with distinct labels and non-negative counts, the
`name` values of all descriptors in the produced sequence are pairwise
distinct, and likewise the `volume_name` values. -/
theorem c4_names_and_volumes_nodup (m : List (String × Int))
    (hlabels : (m.map Prod.fst).Nodup) (hcounts : ∀ q ∈ m, 0 ≤ q.2) :
    ((buildHostlist m).map Descriptor.name).Nodup
    ∧ ((buildHostlist m).map Descriptor.volume_name).Nodup := by
  clear hcounts
  rw [map_name_buildHostlist, map_volume_buildHostlist]
  exact ⟨tags_flatten_nodup _ m hlabels, tags_flatten_nodup _ m hlabels⟩

/-- Witness for C4 at the hard-coded latency table. -/
theorem c4_witness :
    ((buildHostlist latencies_to_node_count).map Descriptor.name).Nodup
    ∧ ((buildHostlist latencies_to_node_count).map Descriptor.volume_name).Nodup :=
  c4_names_and_volumes_nodup latencies_to_node_count (by decide) (by decide)

/-- C6: a label with count 0 contributes zero descriptors, and its presence
does not change the descriptors generated for any other label. -/
theorem c6_zero_count (pre post : List (String × Int)) (l : String) :
    buildHostlist (pre ++ (l, 0) :: post) = buildHostlist (pre ++ post) := by
  rw [buildHostlist_eq_flatten, buildHostlist_eq_flatten]
  simp [make_container_list]

/-- C9: for every integer count ≤ 0 (negative counts included),
make_container_list returns the empty sequence, silently, with no error. -/
theorem c9_nonpositive_count (l : String) (c : Int) (h : c ≤ 0) :
    make_container_list l c = [] := by
  have hc : c.toNat = 0 := Int.toNat_of_nonpos h
  simp [make_container_list, hc]

/-- Witness for C9 at count -5. -/
theorem c9_witness : make_container_list "100ms" (-5) = [] :=
  c9_nonpositive_count "100ms" (-5) (by decide)

/-- C5: every response emitted by the static file server carries the header
`Access-Control-Allow-Origin: *` in addition to the headers the underlying
handler buffered, including error responses such as a 404 for a missing
file. -/
theorem c5_cors_on_every_response (r : ResponseState)
    (files : List (String × String)) (path : String) :
    ("Access-Control-Allow-Origin", "*") ∈ end_headers r
    ∧ ("Access-Control-Allow-Origin", "*") ∈ (serveRequest files path).headers
    ∧ (files.lookup path = none → (serveRequest files path).status = 404)
    ∧ (∀ content, files.lookup path = some content →
        (serveRequest files path).status = 200
        ∧ (serveRequest files path).body = content) := by
  refine ⟨by simp [end_headers], ?_, fun h => ?_, fun content h => ?_⟩
  · unfold serveRequest
    cases files.lookup path <;> simp [end_headers]
  · simp [serveRequest, h]
  · simp [serveRequest, h]

/-- Witness for C5: a 404 response for a missing file still has the header. -/
theorem c5_witness :
    ("Access-Control-Allow-Origin", "*") ∈ (serveRequest [] "/missing.html").headers
    ∧ (serveRequest [] "/missing.html").status = 404 := by
  have h := c5_cors_on_every_response ⟨404, []⟩ [] "/missing.html"
  exact ⟨h.2.1, h.2.2.1 (by decide)⟩

/-- C7: when the template file is missing at `docker-compose.yaml.j2` the
renderer terminates with `TemplateNotFound`; when it is present but invalid,
with `TemplateSyntaxError`; in both cases nothing is written. Otherwise it
renders once and writes the result to standard output. -/
theorem c7_renderer_errors (fs : List (String × TemplateFile))
    (render : TemplateFile → List Descriptor → String) :
    (fs.lookup "docker-compose.yaml.j2" = none →
        rendererMain fs render = .error .TemplateNotFound)
    ∧ (∀ t, fs.lookup "docker-compose.yaml.j2" = some t → t.valid = false →
        rendererMain fs render = .error .TemplateSyntaxError)
    ∧ (∀ t, fs.lookup "docker-compose.yaml.j2" = some t → t.valid = true →
        rendererMain fs render = .ok (render t hostlist)) := by
  refine ⟨fun h => ?_, fun t ht hv => ?_, fun t ht hv => ?_⟩
  · simp [rendererMain, get_template, h]
  · simp [rendererMain, get_template, ht, hv]
  · simp [rendererMain, get_template, ht, hv]

/-- Witness for C7: an empty directory, an invalid template, and a valid
template. -/
theorem c7_witness :
    rendererMain [] (fun _ _ => "") = .error .TemplateNotFound
    ∧ rendererMain [("docker-compose.yaml.j2", ⟨"bad", false⟩)] (fun _ _ => "")
        = .error .TemplateSyntaxError
    ∧ rendererMain [("docker-compose.yaml.j2", ⟨"ok", true⟩)] (fun t _ => t.content)
        = .ok "ok" :=
  ⟨(c7_renderer_errors [] _).1 (by decide),
   (c7_renderer_errors _ _).2.1 ⟨"bad", false⟩ (by decide) rfl,
   (c7_renderer_errors _ _).2.2 ⟨"ok", true⟩ (by decide) rfl⟩

/-- C8: the static server binds the TCP port given as the single optional
positional argument, parsed as an integer, and defaults to 8000 when the
argument is absent. -/
theorem c8_port_binding (prog arg : String) (n : Int) (h : pyInt arg = some n) :
    script_main [prog] = some 8000 ∧ script_main [prog, arg] = some n := by
  constructor
  · simp [script_main]
  · simp [script_main, h]

/-- Witness for C8: default with no argument, and port 8080 when given. -/
theorem c8_witness :
    script_main ["script.py"] = some 8000
    ∧ script_main ["script.py", "8080"] = some 8080 :=
  c8_port_binding "script.py" "8080" 8080 (by decide)

/-- C10: a present but unparsable port argument raises ValueError and the
server never starts; the 8000 default is never a fallback in that case. -/
theorem c10_unparsable_port (prog arg : String) (h : pyInt arg = none) :
    script_main [prog, arg] = none := by
  simp [script_main, h]

/-- Witness for C10 at the argument "abc". -/
theorem c10_witness : script_main ["script.py", "abc"] = none :=
  c10_unparsable_port "script.py" "abc" (by decide)

end Drand
